import Mathlib

/-!
Shallow embedding of the image-ocr-system request pipeline.

The Python modules under src/app are embedded as pure Lean functions:
exceptions become an inductive error type, module/class level mutable
state (setting caches, the prompt cache, the client singleton) becomes
explicit state passed in and out, and external collaborators (the
filesystem, the PIL decoder, the stdlib json and float parsers, the
remote Gemini service) become parameters or small executable models.
All numeric settings are modelled as rationals.
-/

/-- Python exception classes used by the program (src/app/exceptions.py plus
the builtin exceptions the code can raise): each carries its message string.
The first six derive from OCRException; ValueError, TypeError, OSError,
UnidentifiedImageError and UnicodeDecodeError are builtins outside that
hierarchy (UnidentifiedImageError is a subclass of OSError in PIL). -/
inductive PyErr where
  | OCRException (m : String)
  | ImageLoadError (m : String)
  | APIError (m : String)
  | ValidationError (m : String)
  | ConfigurationError (m : String)
  | JSONParseError (m : String)
  | ValueError (m : String)
  | TypeError (m : String)
  | OSError (m : String)
  | UnidentifiedImageError (m : String)
  | UnicodeDecodeError (m : String)
deriving DecidableEq, Repr

/-- Message carried by an exception, as str(e) in Python. -/
def PyErr.msg : PyErr → String
  | .OCRException m => m
  | .ImageLoadError m => m
  | .APIError m => m
  | .ValidationError m => m
  | .ConfigurationError m => m
  | .JSONParseError m => m
  | .ValueError m => m
  | .TypeError m => m
  | .OSError m => m
  | .UnidentifiedImageError m => m
  | .UnicodeDecodeError m => m

/-- Whether the exception is an instance of OCRException (exceptions.py). -/
def PyErr.isOCRException : PyErr → Bool
  | .OCRException _ => true
  | .ImageLoadError _ => true
  | .APIError _ => true
  | .ValidationError _ => true
  | .ConfigurationError _ => true
  | .JSONParseError _ => true
  | _ => false

/-- Whether the exception is an instance of APIError. -/
def PyErr.isAPIError : PyErr → Bool
  | .APIError _ => true
  | _ => false

/-- Whether the exception is an instance of ConfigurationError. -/
def PyErr.isConfigurationError : PyErr → Bool
  | .ConfigurationError _ => true
  | _ => false

/-- Whether the exception is caught by except (OSError, IOError,
Image.UnidentifiedImageError): in Python 3, IOError is an alias of OSError
and UnidentifiedImageError derives from OSError. -/
def PyErr.isOSLike : PyErr → Bool
  | .OSError _ => true
  | .UnidentifiedImageError _ => true
  | _ => false

/-- Whether the exception is caught by except (OSError, IOError,
UnicodeDecodeError) in read_file (src/app/utils/file_utils.py). -/
def PyErr.isReadFileCaught : PyErr → Bool
  | .OSError _ => true
  | .UnidentifiedImageError _ => true
  | .UnicodeDecodeError _ => true
  | _ => false

/-- Lookup in an insertion-ordered string-keyed mapping, modelling
Python dict membership and subscript access. -/
def dictGet {α : Type} (d : List (String × α)) (k : String) : Option α :=
  match d with
  | [] => none
  | (k₀, v₀) :: rest => if k₀ = k then some v₀ else dictGet rest k

/-- Assignment d[k] = v on an insertion-ordered mapping: replaces the value
in place when the key is present, otherwise appends the new entry at the
end, as a Python dict does. -/
def dictSet {α : Type} (d : List (String × α)) (k : String) (v : α) :
    List (String × α) :=
  match d with
  | [] => [(k, v)]
  | (k₀, v₀) :: rest =>
      if k₀ = k then (k₀, v) :: rest else (k₀, v₀) :: dictSet rest k v

/-- Numeric value of a decimal digit character. -/
def digitVal (c : Char) : Nat := c.toNat - 48

/-- Whether every character of the list is a decimal digit. -/
def allDigits (cs : List Char) : Bool := cs.all Char.isDigit

/-- Natural number denoted by a digit string, most significant first. -/
def digitsToNat (cs : List Char) : Nat :=
  cs.foldl (fun acc c => 10 * acc + digitVal c) 0

/-- Model of the Python builtin float() on plain decimal literals
(optional sign, integer part, optional fractional part); the parsed value
is represented exactly as a rational. Inputs outside this grammar are
rejected (none), matching the ValueError float() raises on non-numeric
text such as the TEMPERATURE override abc. -/
def pyFloat (s : String) : Option ℚ :=
  let cs := s.data
  let signAndRest : ℚ × List Char :=
    match cs with
    | '-' :: t => (-1, t)
    | '+' :: t => (1, t)
    | _ => (1, cs)
  let sgn := signAndRest.1
  let body := signAndRest.2
  match body.span (fun c => c ≠ '.') with
  | (ip, []) =>
      if ip ≠ [] ∧ allDigits ip then some (sgn * digitsToNat ip) else none
  | (ip, _ :: fp) =>
      if (ip ≠ [] ∨ fp ≠ []) ∧ allDigits ip ∧ allDigits fp then
        some (sgn * ((digitsToNat ip : ℚ) + (digitsToNat fp : ℚ) / 10 ^ fp.length))
      else none

/-- Settings._get_temperature (src/app/config/settings.py, lines 40 to 45):
the TEMPERATURE environment value (none when unset) and the memoized class
attribute are explicit; returns the outcome together with the new memo.
float() on a non-numeric string raises ValueError, and the assignment to
the class attribute then never happens, so the memo stays empty. -/
def Settings.get_temperature (envVal : Option String) (cached : Option ℚ) :
    Except PyErr ℚ × Option ℚ :=
  match cached with
  | some t => (.ok t, some t)
  | none =>
      let s := envVal.getD "0.0"
      match pyFloat s with
      | some v => (.ok v, some v)
      | none => (.error (.ValueError ("could not convert string to float: " ++ s)), none)

/-- Settings._get_top_p (src/app/config/settings.py, lines 47 to 52):
same shape as get_temperature with default literal 0.1. -/
def Settings.get_top_p (envVal : Option String) (cached : Option ℚ) :
    Except PyErr ℚ × Option ℚ :=
  match cached with
  | some t => (.ok t, some t)
  | none =>
      let s := envVal.getD "0.1"
      match pyFloat s with
      | some v => (.ok v, some v)
      | none => (.error (.ValueError ("could not convert string to float: " ++ s)), none)

/-- Whether a pipeline-stage outcome is a ConfigurationError failure. -/
def failsWithConfigurationError {α : Type} : Except PyErr α → Bool
  | .error e => e.isConfigurationError
  | .ok _ => false

/-- JSON values as produced by the stdlib json parser, restricted to the
shapes this program manipulates: numbers, strings and insertion-ordered
objects. -/
inductive Json where
  | num (n : Int)
  | str (s : String)
  | obj (fields : List (String × Json))

/-- Usage metadata reported by the Gemini response object; the pipeline
reads prompt_token_count and candidates_token_count. -/
structure UsageMetadata where
  prompt_token_count : Int
  candidates_token_count : Int
deriving DecidableEq, Repr

/-- The prompt_feedback attribute of a Gemini response: carries an
optional block_reason (none models the attribute being None or absent). -/
structure PromptFeedback where
  block_reason : Option String
deriving DecidableEq, Repr

/-- Gemini response object as consumed by extract and run_pipeline:
text, optional prompt_feedback and optional usage_metadata. -/
structure GenResponse where
  text : String
  prompt_feedback : Option PromptFeedback
  usage_metadata : Option UsageMetadata
deriving DecidableEq, Repr

/-- Decoded PIL image: format tag (none when undetermined) and the two
components of image.size. -/
structure PILImage where
  format : Option String
  width : Nat
  height : Nat
deriving DecidableEq, Repr

/-- Class-level state of GeminiOCRClient
(src/app/ocr/gemini_client.py, lines 14 to 15): the memoized singleton
instance (identified by an allocation number), the memoized service
handle, and two instrumentation counters recording how many fresh
instances have been allocated and how many genai.Client constructions
have been attempted. -/
structure ClientState where
  instanceId : Option Nat
  clientHandle : Option Nat
  newCount : Nat
  createCalls : Nat
deriving DecidableEq, Repr

/-- The empty class state at process start. -/
def ClientState.initial : ClientState :=
  { instanceId := none, clientHandle := none, newCount := 0, createCalls := 0 }

/-- GeminiOCRClient.new (src/app/ocr/gemini_client.py, lines 17 to 20):
returns the memoized instance when present, otherwise allocates a fresh
one and stores it before initialization runs. -/
def GeminiOCRClient.new (s : ClientState) : Nat × ClientState :=
  match s.instanceId with
  | some i => (i, s)
  | none =>
      (s.newCount,
        { s with instanceId := some s.newCount, newCount := s.newCount + 1 })

/-- GeminiOCRClient.init (src/app/ocr/gemini_client.py, lines 22 to 31):
returns immediately when the handle already exists; otherwise attempts
genai.Client(api_key=Settings.get_api_key()), modelled by tryCreate
applied to the attempt number. A ConfigurationError from the attempt is
re-raised as ConfigurationError with added context; any other failure is
wrapped into APIError. The handle is stored only on success. -/
def GeminiOCRClient.init (tryCreate : Nat → Except PyErr Nat)
    (s : ClientState) : Except PyErr Unit × ClientState :=
  match s.clientHandle with
  | some _ => (.ok (), s)
  | none =>
      let s₁ := { s with createCalls := s.createCalls + 1 }
      match tryCreate s.createCalls with
      | .ok h => (.ok (), { s₁ with clientHandle := some h })
      | .error e =>
          if e.isConfigurationError then
            (.error (.ConfigurationError
              ("Failed to initialize Gemini client: " ++ e.msg)), s₁)
          else
            (.error (.APIError
              ("Failed to create Gemini client: " ++ e.msg)), s₁)

/-- A construction call GeminiOCRClient(): Python runs new then init on
the returned instance; the instance number is returned on success, and
class-state mutations persist even when init raises. -/
def GeminiOCRClient.construct (tryCreate : Nat → Except PyErr Nat)
    (s : ClientState) : Except PyErr Nat × ClientState :=
  let ns := GeminiOCRClient.new s
  match GeminiOCRClient.init tryCreate ns.2 with
  | (.ok _, s₂) => (.ok ns.1, s₂)
  | (.error e, s₂) => (.error e, s₂)

/-- Truthiness of the optional block_reason string: None and the empty
string are falsy in Python. -/
def optStrTruthy : Option String → Bool
  | none => false
  | some s => s ≠ ""

/-- Body of GeminiOCRClient.extract before its except clauses
(src/app/ocr/gemini_client.py, lines 47 to 72): resolve temperature and
top-p for the request configuration, read the client handle through the
client property (which raises APIError when the handle is absent),
resolve the model id, invoke the remote service (generate, returning
none when the service yields a falsy response), then validate: empty
response, truthy prompt_feedback with truthy block_reason, and empty
response text each raise APIError. -/
def extractBody (clientHandle : Option Nat)
    (getTemperature getTopP : Except PyErr ℚ)
    (getModelId : Except PyErr String)
    (generate : String → ℚ → ℚ → Except PyErr (Option GenResponse)) :
    Except PyErr GenResponse :=
  match getTemperature with
  | .error e => .error e
  | .ok t =>
    match getTopP with
    | .error e => .error e
    | .ok p =>
      match clientHandle with
      | none => .error (.APIError "Client not initialized")
      | some _ =>
        match getModelId with
        | .error e => .error e
        | .ok m =>
          match generate m t p with
          | .error e => .error e
          | .ok none => .error (.APIError "Empty response from Gemini API")
          | .ok (some resp) =>
            let blocked : Bool :=
              match resp.prompt_feedback with
              | some pf => optStrTruthy pf.block_reason
              | none => false
            if blocked then
              .error (.APIError ("Content blocked by safety filters: "
                ++ ((resp.prompt_feedback.bind PromptFeedback.block_reason).getD "")))
            else if resp.text = "" then
              .error (.APIError "Empty response text from Gemini API")
            else .ok resp

/-- One attempt of GeminiOCRClient.extract including its except clauses
(src/app/ocr/gemini_client.py, lines 73 to 76): an APIError passes
through unchanged, every other exception is wrapped into APIError with
context. -/
def extractOnce (clientHandle : Option Nat)
    (getTemperature getTopP : Except PyErr ℚ)
    (getModelId : Except PyErr String)
    (generate : String → ℚ → ℚ → Except PyErr (Option GenResponse)) :
    Except PyErr GenResponse :=
  match extractBody clientHandle getTemperature getTopP getModelId generate with
  | .ok r => .ok r
  | .error e =>
      if e.isAPIError then .error e
      else .error (.APIError ("Gemini API call failed: " ++ e.msg))

/-- Attempt loop of the tenacity policy: f is the attempt body indexed by
the zero-based attempt number, fuel is the number of attempts still
allowed. An exception matching retry_if_exception_type(APIError) is
retried while attempts remain; any other exception, or the last allowed
failure, is re-raised unchanged (reraise=True). Returns the outcome and
the total number of attempts made. -/
def retryGo {α : Type} (f : Nat → Except PyErr α) :
    Nat → Nat → Except PyErr α × Nat
  | i, 0 => (.error (.OCRException "no attempts allowed"), i)
  | i, fuel + 1 =>
      match f i with
      | .ok a => (.ok a, i + 1)
      | .error e =>
          if e.isAPIError && fuel != 0 then retryGo f (i + 1) fuel
          else (.error e, i + 1)

/-- The retry decorator on extract (src/app/ocr/gemini_client.py, lines
39 to 44): stop_after_attempt(3), retry only on APIError, reraise. -/
def retryExtract {α : Type} (f : Nat → Except PyErr α) : Except PyErr α × Nat :=
  retryGo f 0 3

/-- validate_image_path (src/app/utils/validation.py, lines 8 to 23):
filesystem facts (existence, regular-file status, readability) are
explicit booleans; each failing check raises ValidationError and the
path string is returned unchanged on success. -/
def validate_image_path (pathExists isFile readable : Bool)
    (image_path : String) : Except PyErr String :=
  if image_path = "" then
    .error (.ValidationError "Image path cannot be empty")
  else if !pathExists then
    .error (.ValidationError ("Image path does not exist: " ++ image_path))
  else if !isFile then
    .error (.ValidationError ("Image path is not a file: " ++ image_path))
  else if !readable then
    .error (.ValidationError ("Image file is not readable: " ++ image_path))
  else .ok image_path

/-- validate_image_format (src/app/utils/validation.py, lines 26 to 32):
ImageLoadError when the format is undetermined or either component of
image.size is zero. -/
def validate_image_format (image : PILImage) : Except PyErr Unit :=
  if image.format = none then
    .error (.ImageLoadError "Image format could not be determined")
  else if image.width = 0 ∨ image.height = 0 then
    .error (.ImageLoadError "Image has invalid dimensions")
  else .ok ()

/-- load_image (src/app/processors/image_loader.py, lines 7 to 16):
validatePath models validate_image_path on the ambient filesystem and
openDecode models Image.open followed by image.load (the full decode).
An OSError-like exception escaping the try block is wrapped into
ImageLoadError with the path and original message; ValidationError and
ImageLoadError are not OSError subclasses, so they propagate unchanged. -/
def load_image (validatePath : String → Except PyErr String)
    (openDecode : String → Except PyErr PILImage) (path : String) :
    Except PyErr PILImage :=
  let body : Except PyErr PILImage :=
    match validatePath path with
    | .error e => .error e
    | .ok validated =>
      match openDecode validated with
      | .error e => .error e
      | .ok image =>
        match validate_image_format image with
        | .error e => .error e
        | .ok _ => .ok image
  match body with
  | .ok image => .ok image
  | .error e =>
      if e.isOSLike then
        .error (.ImageLoadError
          ("Failed to load image from " ++ path ++ ": " ++ e.msg))
      else .error e

/-- read_file (src/app/utils/file_utils.py, lines 6 to 18): existence and
regular-file status are explicit booleans, readText models the open and
read of the file body; OSError-like and UnicodeDecodeError failures of
the read are wrapped into ValidationError with context. -/
def read_file (pathExists isFile : Bool) (readText : Except PyErr String)
    (path : String) : Except PyErr String :=
  if !pathExists then
    .error (.ValidationError ("File does not exist: " ++ path))
  else if !isFile then
    .error (.ValidationError ("Path is not a file: " ++ path))
  else
    match readText with
    | .ok s => .ok s
    | .error e =>
        if e.isReadFileCaught then
          .error (.ValidationError
            ("Failed to read file " ++ path ++ ": " ++ e.msg))
        else .error e

/-- get_cached_prompt (src/app/pipeline.py, lines 12 to 16): the module
cache is explicit; a miss calls read (modelling read_file on the ambient
filesystem) and stores the content only when the read returns. Returns
the outcome, the new cache, and whether the underlying read ran. -/
def get_cached_prompt (read : String → Except PyErr String)
    (cache : List (String × String)) (path : String) :
    Except PyErr String × List (String × String) × Bool :=
  match dictGet cache path with
  | some content => (.ok content, cache, false)
  | none =>
      match read path with
      | .ok content => (.ok content, dictSet cache path content, true)
      | .error e => (.error e, cache, true)

/-- The fixed note string injected with usage metadata. -/
def usageNote : String := "Populated from Gemini API"

/-- run_pipeline (src/app/pipeline.py, lines 19 to 45): the earlier
stages (image load, the two cached prompt fetches, client construction,
the retried extract call) are passed as their outcomes; jsonLoads models
stdlib json.loads on the response text. A json.loads failure raises
JSONParseError carrying the underlying message; when usage metadata is
present, the usage_metadata key is assigned into the parsed dict (a
non-object parse result would raise TypeError on that assignment). The
outer except clauses re-raise any OCRException unchanged and wrap
everything else into the generic OCRException. -/
def run_pipeline (loadImage : Except PyErr PILImage)
    (systemPrompt userPrompt : Except PyErr String)
    (constructClient : Except PyErr Nat)
    (extractResult : Except PyErr GenResponse)
    (jsonLoads : String → Except String Json) : Except PyErr Json :=
  let body : Except PyErr Json :=
    match loadImage with
    | .error e => .error e
    | .ok _ =>
      match systemPrompt with
      | .error e => .error e
      | .ok _ =>
        match userPrompt with
        | .error e => .error e
        | .ok _ =>
          match constructClient with
          | .error e => .error e
          | .ok _ =>
            match extractResult with
            | .error e => .error e
            | .ok response =>
              match jsonLoads response.text with
              | .error m =>
                  .error (.JSONParseError ("Failed to parse JSON response: " ++ m))
              | .ok data =>
                match response.usage_metadata with
                | none => .ok data
                | some u =>
                    match data with
                    | .obj fields =>
                        .ok (.obj (dictSet fields "usage_metadata"
                          (.obj [("input_tokens", .num u.prompt_token_count),
                                 ("output_tokens", .num u.candidates_token_count),
                                 ("note", .str usageNote)])))
                    | _ => .error (.TypeError "object does not support item assignment")
  match body with
  | .ok d => .ok d
  | .error e =>
      if e.isOCRException then .error e
      else .error (.OCRException ("Pipeline execution failed: " ++ e.msg))

/-- Decidable equality of outcomes, so that concrete runs of the embedded
functions can be settled by evaluation. -/
def exceptDecEq {ε α : Type} [DecidableEq ε] [DecidableEq α] :
    (a b : Except ε α) → Decidable (a = b)
  | .ok a, .ok b =>
      if h : a = b then .isTrue (by subst h; rfl)
      else .isFalse (fun hc => by cases hc; exact h rfl)
  | .ok _, .error _ => .isFalse (fun hc => by cases hc)
  | .error _, .ok _ => .isFalse (fun hc => by cases hc)
  | .error e, .error f =>
      if h : e = f then .isTrue (by subst h; rfl)
      else .isFalse (fun hc => by cases hc; exact h rfl)

instance {ε α : Type} [DecidableEq ε] [DecidableEq α] : DecidableEq (Except ε α) :=
  exceptDecEq

theorem dictGet_dictSet_self {α : Type} (d : List (String × α)) (k : String)
    (v : α) : dictGet (dictSet d k v) k = some v := by
  induction d with
  | nil => simp [dictGet, dictSet]
  | cons hd tl ih =>
      obtain ⟨k₀, v₀⟩ := hd
      by_cases hk : k₀ = k <;> simp [dictGet, dictSet, hk, ih]

theorem dictGet_dictSet_other {α : Type} (d : List (String × α)) (k k' : String)
    (v : α) (hne : k' ≠ k) : dictGet (dictSet d k v) k' = dictGet d k' := by
  have hkk : k ≠ k' := fun h => hne h.symm
  induction d with
  | nil => simp [dictGet, dictSet, hkk]
  | cons hd tl ih =>
      obtain ⟨k₀, v₀⟩ := hd
      by_cases hk : k₀ = k
      · subst hk
        simp [dictGet, dictSet, hkk]
      · simp only [dictGet, dictSet, if_neg hk]
        by_cases hk' : k₀ = k' <;> simp [hk', ih]

/-- C3: the retry policy wrapping extract makes at most 3 attempts total:
the outcome is determined by the first three attempt bodies alone; when the
wrapped call raises APIError on the first two attempts and succeeds on the
third, the success result is returned after exactly 3 attempts; when it
raises APIError on all three attempts, exactly 3 attempts are made and the
last APIError is re-raised unchanged, not wrapped or aggregated. -/
theorem retryExtract_attempt_policy
    (f : Nat → Except PyErr GenResponse) (m₀ m₁ : String)
    (h₀ : f 0 = .error (.APIError m₀)) (h₁ : f 1 = .error (.APIError m₁)) :
    (∀ g : Nat → Except PyErr GenResponse,
        g 0 = f 0 → g 1 = f 1 → g 2 = f 2 → retryExtract g = retryExtract f)
    ∧ (∀ a : GenResponse, f 2 = .ok a → retryExtract f = (.ok a, 3))
    ∧ (∀ m₂ : String, f 2 = .error (.APIError m₂) →
        retryExtract f = (.error (.APIError m₂), 3)) := by
  refine ⟨?_, ?_, ?_⟩
  · intro g hg0 hg1 hg2
    cases hf2 : f 2 <;>
      simp [retryExtract, retryGo, hg0, hg1, hg2, h₀, h₁, hf2, PyErr.isAPIError]
  · intro a h₂
    simp [retryExtract, retryGo, h₀, h₁, h₂, PyErr.isAPIError]
  · intro m₂ h₂
    simp [retryExtract, retryGo, h₀, h₁, h₂, PyErr.isAPIError]

/-- Witness for C3 at a concrete attempt sequence: APIError on attempts
one and two, success on attempt three. -/
theorem retryExtract_attempt_policy_witness :
    retryExtract (fun i => if i = 0 then .error (.APIError "boom0")
        else if i = 1 then .error (.APIError "boom1")
        else .ok (⟨"ok", none, none⟩ : GenResponse))
      = (.ok (⟨"ok", none, none⟩ : GenResponse), 3) :=
  (retryExtract_attempt_policy _ "boom0" "boom1" rfl rfl).2.1 ⟨"ok", none, none⟩ rfl

/-- C1 counterexample: with GEMINI_MODEL unset, the ConfigurationError
raised while resolving the model id inside the body of extract is caught
by the blanket except clause, wrapped into APIError, and then retried:
the decorated call makes 3 attempts and ends in APIError, never surfacing
a ConfigurationError. -/
theorem extract_config_error_wrapped_and_retried :
    retryExtract (fun _ => extractOnce (some 0) (.ok 0) (.ok (1/10))
        (.error (.ConfigurationError "GEMINI_MODEL environment variable is not set"))
        (fun _ _ _ => .ok (some ⟨"x", none, none⟩)))
      = (.error (.APIError
          "Gemini API call failed: GEMINI_MODEL environment variable is not set"), 3)
    ∧ failsWithConfigurationError
        (retryExtract (fun _ => extractOnce (some 0) (.ok 0) (.ok (1/10))
          (.error (.ConfigurationError "GEMINI_MODEL environment variable is not set"))
          (fun _ _ _ => .ok (some ⟨"x", none, none⟩)))).1 = false := by
  constructor <;> rfl

/-- C1 amended: for every error raised inside the body of extract, the
retry layer sees only APIError: a non-APIError exception raised while
resolving the temperature or the model id — a ConfigurationError from the
Config Resolver included — is wrapped into APIError with context by the
blanket except clause and is therefore retried; after the 3 allowed
attempts the decorated call fails with that APIError, and no
ConfigurationError propagates from extract. -/
theorem extract_body_errors_retried_as_apierror
    (handle : Nat) (t p : ℚ) (e : PyErr) (he : e.isAPIError = false)
    (getP : Except PyErr ℚ) (getM : Except PyErr String)
    (generate : String → ℚ → ℚ → Except PyErr (Option GenResponse)) :
    retryExtract (fun _ => extractOnce (some handle) (.ok t) (.ok p)
        (.error e) generate)
      = (.error (.APIError ("Gemini API call failed: " ++ e.msg)), 3)
    ∧ retryExtract (fun _ => extractOnce (some handle) (.error e) getP
        getM generate)
      = (.error (.APIError ("Gemini API call failed: " ++ e.msg)), 3)
    ∧ failsWithConfigurationError
        (retryExtract (fun _ => extractOnce (some handle) (.ok t) (.ok p)
          (.error e) generate)).1 = false := by
  have honceM : extractOnce (some handle) (.ok t) (.ok p) (.error e) generate
      = .error (.APIError ("Gemini API call failed: " ++ e.msg)) := by
    simp [extractOnce, extractBody, he]
  have honceT : extractOnce (some handle) (.error e) getP getM generate
      = .error (.APIError ("Gemini API call failed: " ++ e.msg)) := by
    simp [extractOnce, extractBody, he]
  refine ⟨?_, ?_, ?_⟩
  · simp [retryExtract, retryGo, honceM, PyErr.isAPIError]
  · simp [retryExtract, retryGo, honceT, PyErr.isAPIError]
  · simp [retryExtract, retryGo, honceM, PyErr.isAPIError,
      failsWithConfigurationError, PyErr.isConfigurationError]

/-- Witness for the amended C1 at a concrete ConfigurationError raised
while resolving the model id. -/
theorem extract_body_errors_retried_as_apierror_witness :
    retryExtract (fun _ => extractOnce (some 1) (.ok 0) (.ok (1/10))
        (.error (.ConfigurationError "GEMINI_API_KEY environment variable is not set"))
        (fun _ _ _ => .ok none))
      = (.error (.APIError
          "Gemini API call failed: GEMINI_API_KEY environment variable is not set"), 3) :=
  (extract_body_errors_retried_as_apierror 1 0 (1/10)
    (.ConfigurationError "GEMINI_API_KEY environment variable is not set") rfl
    (.ok 0) (.ok "m") (fun _ _ _ => .ok none)).1

theorem pyFloat_eval_default_temperature : pyFloat "0.0" = some 0 := by
  have d0 : digitsToNat ['0'] = 0 := rfl
  have h : pyFloat "0.0"
      = some ((1 : ℚ) * ((digitsToNat ['0'] : ℚ)
          + (digitsToNat ['0'] : ℚ) / 10 ^ (1 : ℕ))) := rfl
  rw [h, d0]
  norm_num

theorem pyFloat_eval_default_top_p : pyFloat "0.1" = some (1 / 10) := by
  have d0 : digitsToNat ['0'] = 0 := rfl
  have d1 : digitsToNat ['1'] = 1 := rfl
  have h : pyFloat "0.1"
      = some ((1 : ℚ) * ((digitsToNat ['0'] : ℚ)
          + (digitsToNat ['1'] : ℚ) / 10 ^ (1 : ℕ))) := rfl
  rw [h, d0, d1]
  norm_num

/-- C2: the code raises an unclassified error on a non-numeric override:
with TEMPERATURE set to the non-numeric string abc, the first access of
the temperature setting raises the builtin ValueError — not the
ConfigurationError the specification requires — and nothing is memoized;
with the variables unset, temperature resolves to exactly 0.0 and top-p
to exactly 0.1. -/
theorem get_temperature_nonnumeric_raises_valueerror :
    Settings.get_temperature (some "abc") none
      = (.error (.ValueError "could not convert string to float: abc"), none)
    ∧ failsWithConfigurationError (Settings.get_temperature (some "abc") none).1
        = false
    ∧ Settings.get_temperature none none = (.ok 0, some 0)
    ∧ Settings.get_top_p none none = (.ok (1/10), some (1/10)) := by
  refine ⟨by decide, by decide, ?_, ?_⟩
  · simp [Settings.get_temperature, pyFloat_eval_default_temperature]
  · simp [Settings.get_top_p, pyFloat_eval_default_top_p]

/-- C4: for every response whose text is the well-formed JSON object with
single key a and value 1 (as parsed by the stdlib json parser, modelled
by the jsonLoads hypothesis): with no usage metadata, run_pipeline
returns the parsed object unchanged with no usage_metadata key; with
usage metadata reporting input tokens 5 and output tokens 7, it returns
the object extended with the usage_metadata entry carrying those counts
and the fixed note string. -/
theorem run_pipeline_json_round_trip
    (jsonLoads : String → Except String Json)
    (img : PILImage) (sp up : String) (c : Nat) (pf : Option PromptFeedback)
    (hj : jsonLoads "\x7b\"a\":1\x7d" = .ok (.obj [("a", .num 1)])) :
    run_pipeline (.ok img) (.ok sp) (.ok up) (.ok c)
        (.ok ⟨"\x7b\"a\":1\x7d", pf, none⟩) jsonLoads
      = .ok (.obj [("a", .num 1)])
    ∧ run_pipeline (.ok img) (.ok sp) (.ok up) (.ok c)
        (.ok ⟨"\x7b\"a\":1\x7d", pf, some ⟨5, 7⟩⟩) jsonLoads
      = .ok (.obj [("a", .num 1),
          ("usage_metadata", .obj [("input_tokens", .num 5),
            ("output_tokens", .num 7),
            ("note", .str "Populated from Gemini API")])]) := by
  constructor
  · simp [run_pipeline, hj]
  · simp [run_pipeline, hj, dictSet, usageNote]

/-- Witness for C4 with a concrete one-point stand-in for json.loads. -/
theorem run_pipeline_json_round_trip_witness :
    run_pipeline (.ok ⟨some "WEBP", 1, 1⟩) (.ok "s") (.ok "u") (.ok 0)
        (.ok ⟨"\x7b\"a\":1\x7d", none, some ⟨5, 7⟩⟩)
        (fun s => if s = "\x7b\"a\":1\x7d" then .ok (.obj [("a", .num 1)])
          else .error "Expecting value: line 1 column 1 (char 0)")
      = .ok (.obj [("a", .num 1),
          ("usage_metadata", .obj [("input_tokens", .num 5),
            ("output_tokens", .num 7),
            ("note", .str "Populated from Gemini API")])]) :=
  (run_pipeline_json_round_trip _ ⟨some "WEBP", 1, 1⟩ "s" "u" 0 none rfl).2

/-- C5: for every response whose text the json parser rejects,
run_pipeline fails with JSONParseError — not the generic pipeline
error — and the JSONParseError message carries the underlying parse
error message after the fixed prefix text. -/
theorem run_pipeline_malformed_json
    (jsonLoads : String → Except String Json)
    (img : PILImage) (sp up : String) (c : Nat) (resp : GenResponse)
    (m : String) (hj : jsonLoads resp.text = .error m) :
    run_pipeline (.ok img) (.ok sp) (.ok up) (.ok c) (.ok resp) jsonLoads
      = .error (.JSONParseError ("Failed to parse JSON response: " ++ m)) := by
  simp [run_pipeline, hj, PyErr.isOCRException]

/-- Witness for C5 at the concrete malformed text not json. -/
theorem run_pipeline_malformed_json_witness :
    run_pipeline (.ok ⟨some "WEBP", 1, 1⟩) (.ok "s") (.ok "u") (.ok 0)
        (.ok ⟨"not json", none, none⟩)
        (fun _ => .error "Expecting value: line 1 column 1 (char 0)")
      = .error (.JSONParseError
          "Failed to parse JSON response: Expecting value: line 1 column 1 (char 0)") :=
  run_pipeline_malformed_json _ ⟨some "WEBP", 1, 1⟩ "s" "u" 0
    ⟨"not json", none, none⟩ "Expecting value: line 1 column 1 (char 0)" rfl

/-- C6: two construction calls of the OCR client in one process return
the same instance and the service handle is created exactly once: the
second construction leaves the class state — including the count of
handle-creation attempts — untouched. -/
theorem gemini_client_singleton
    (tryCreate : Nat → Except PyErr Nat) (h : Nat)
    (hc : tryCreate 0 = .ok h) :
    GeminiOCRClient.construct tryCreate ClientState.initial
      = (.ok 0, { instanceId := some 0, clientHandle := some h,
                  newCount := 1, createCalls := 1 })
    ∧ GeminiOCRClient.construct tryCreate
        (GeminiOCRClient.construct tryCreate ClientState.initial).2
      = (.ok 0, (GeminiOCRClient.construct tryCreate ClientState.initial).2) := by
  have h1 : GeminiOCRClient.construct tryCreate ClientState.initial
      = (.ok 0, { instanceId := some 0, clientHandle := some h,
                  newCount := 1, createCalls := 1 }) := by
    simp [GeminiOCRClient.construct, GeminiOCRClient.new, GeminiOCRClient.init,
      ClientState.initial, hc]
  refine ⟨h1, ?_⟩
  rw [h1]
  simp [GeminiOCRClient.construct, GeminiOCRClient.new, GeminiOCRClient.init]

/-- Witness for C6 with a concrete always-succeeding handle creation. -/
theorem gemini_client_singleton_witness :
    GeminiOCRClient.construct (fun _ => .ok 42) ClientState.initial
      = (.ok 0, { instanceId := some 0, clientHandle := some 42,
                  newCount := 1, createCalls := 1 }) :=
  (gemini_client_singleton (fun _ => .ok 42) 42 rfl).1

/-- C9: a failed first construction is not sticky: new stores the
singleton instance before initialization runs and initialization is
skipped only when the handle exists, so after a first construction whose
handle creation raises (the error surfacing wrapped as
ConfigurationError or APIError), a second construction call re-attempts
handle creation on the same instance and can succeed. -/
theorem gemini_client_failed_init_not_sticky
    (tryCreate : Nat → Except PyErr Nat) (e : PyErr) (h : Nat)
    (h0 : tryCreate 0 = .error e) (h1 : tryCreate 1 = .ok h) :
    GeminiOCRClient.construct tryCreate ClientState.initial
      = (.error (if e.isConfigurationError
            then .ConfigurationError ("Failed to initialize Gemini client: " ++ e.msg)
            else .APIError ("Failed to create Gemini client: " ++ e.msg)),
         { instanceId := some 0, clientHandle := none,
           newCount := 1, createCalls := 1 })
    ∧ GeminiOCRClient.construct tryCreate
        (GeminiOCRClient.construct tryCreate ClientState.initial).2
      = (.ok 0, { instanceId := some 0, clientHandle := some h,
                  newCount := 1, createCalls := 2 }) := by
  have hfirst : GeminiOCRClient.construct tryCreate ClientState.initial
      = (.error (if e.isConfigurationError
            then .ConfigurationError ("Failed to initialize Gemini client: " ++ e.msg)
            else .APIError ("Failed to create Gemini client: " ++ e.msg)),
         { instanceId := some 0, clientHandle := none,
           newCount := 1, createCalls := 1 }) := by
    cases hce : e.isConfigurationError <;>
      simp [GeminiOCRClient.construct, GeminiOCRClient.new, GeminiOCRClient.init,
        ClientState.initial, h0, hce]
  refine ⟨hfirst, ?_⟩
  rw [hfirst]
  simp [GeminiOCRClient.construct, GeminiOCRClient.new, GeminiOCRClient.init, h1]

/-- Witness for C9: handle creation fails with ConfigurationError on the
first construction and succeeds on the second. -/
theorem gemini_client_failed_init_not_sticky_witness :
    GeminiOCRClient.construct
        (fun i => if i = 0
          then .error (.ConfigurationError "GEMINI_API_KEY environment variable is not set")
          else .ok 7)
        (GeminiOCRClient.construct
          (fun i => if i = 0
            then .error (.ConfigurationError "GEMINI_API_KEY environment variable is not set")
            else .ok 7) ClientState.initial).2
      = (.ok 0, { instanceId := some 0, clientHandle := some 7,
                  newCount := 1, createCalls := 2 }) :=
  (gemini_client_failed_init_not_sticky _
    (.ConfigurationError "GEMINI_API_KEY environment variable is not set") 7 rfl rfl).2

/-- C7: prompt cache idempotence and per-path independence: with a path
not yet cached whose read succeeds, a first getter call reads the file
and caches the content, a second call on the same path returns identical
content without reading again, and a different path is read and cached
independently, leaving both entries retrievable. -/
theorem get_cached_prompt_idempotent_and_independent
    (read : String → Except PyErr String) (cache : List (String × String))
    (path q c cq : String)
    (hmiss : dictGet cache path = none) (hread : read path = .ok c)
    (hne : q ≠ path) (hqmiss : dictGet cache q = none)
    (hqread : read q = .ok cq) :
    get_cached_prompt read cache path = (.ok c, dictSet cache path c, true)
    ∧ get_cached_prompt read (dictSet cache path c) path
        = (.ok c, dictSet cache path c, false)
    ∧ get_cached_prompt read (dictSet cache path c) q
        = (.ok cq, dictSet (dictSet cache path c) q cq, true)
    ∧ dictGet (dictSet (dictSet cache path c) q cq) path = some c
    ∧ dictGet (dictSet (dictSet cache path c) q cq) q = some cq := by
  refine ⟨?_, ?_, ?_, ?_, ?_⟩
  · simp [get_cached_prompt, hmiss, hread]
  · simp [get_cached_prompt, dictGet_dictSet_self]
  · have hq : dictGet (dictSet cache path c) q = none := by
      rw [dictGet_dictSet_other _ _ _ _ hne, hqmiss]
    simp [get_cached_prompt, hq, hqread]
  · rw [dictGet_dictSet_other _ _ _ _ (Ne.symm hne)]
    exact dictGet_dictSet_self _ _ _
  · exact dictGet_dictSet_self _ _ _

/-- Witness for C7 at the two concrete prompt paths of the pipeline. -/
theorem get_cached_prompt_idempotent_and_independent_witness :
    get_cached_prompt
        (fun s => if s = "app/prompts/system.txt" then .ok "SYSTEM" else .ok "EXTRACT")
        [] "app/prompts/system.txt"
      = (.ok "SYSTEM", [("app/prompts/system.txt", "SYSTEM")], true) :=
  (get_cached_prompt_idempotent_and_independent _ []
    "app/prompts/system.txt" "app/prompts/extraction.txt" "SYSTEM" "EXTRACT"
    rfl rfl (by decide) rfl rfl).1

/-- C10: the prompt cache is unchanged on error: a read failing with
ValidationError stores no entry for the path, the path stays uncached,
and a subsequent call with the same path re-attempts the file read (and
can succeed once the read succeeds). -/
theorem get_cached_prompt_failed_read_not_cached
    (read read₂ : String → Except PyErr String)
    (cache : List (String × String)) (path m c : String)
    (hmiss : dictGet cache path = none)
    (hread : read path = .error (.ValidationError m))
    (hread₂ : read₂ path = .ok c) :
    get_cached_prompt read cache path
      = (.error (.ValidationError m), cache, true)
    ∧ dictGet (get_cached_prompt read cache path).2.1 path = none
    ∧ get_cached_prompt read₂ (get_cached_prompt read cache path).2.1 path
        = (.ok c, dictSet cache path c, true) := by
  have h1 : get_cached_prompt read cache path
      = (.error (.ValidationError m), cache, true) := by
    simp [get_cached_prompt, hmiss, hread]
  refine ⟨h1, ?_, ?_⟩
  · rw [h1]
    exact hmiss
  · rw [h1]
    simp [get_cached_prompt, hmiss, hread₂]

/-- Witness for C10: the first read fails through read_file on a missing
file, the second (after the file appears) succeeds. -/
theorem get_cached_prompt_failed_read_not_cached_witness :
    get_cached_prompt
        (fun s => read_file false true (.ok "SYSTEM") s) [] "app/prompts/system.txt"
      = (.error (.ValidationError "File does not exist: app/prompts/system.txt"),
         [], true)
    ∧ get_cached_prompt (fun s => read_file true true (.ok "SYSTEM") s) []
        "app/prompts/system.txt"
      = (.ok "SYSTEM", [("app/prompts/system.txt", "SYSTEM")], true) := by
  have happ := get_cached_prompt_failed_read_not_cached
    (fun s => read_file false true (.ok "SYSTEM") s)
    (fun s => read_file true true (.ok "SYSTEM") s) []
    "app/prompts/system.txt" "File does not exist: app/prompts/system.txt"
    "SYSTEM" rfl rfl rfl
  exact ⟨happ.1, by
    have h3 := happ.2.2
    rw [happ.1] at h3
    exact h3⟩

/-- C8: for every image that decodes successfully but has an
undetermined format or a zero width or a zero height, load_image fails
with ImageLoadError; and every OSError-like decode failure (I/O error or
unrecognized format) is wrapped into ImageLoadError carrying the path
and the original message, never leaking as a raw I/O error. -/
theorem load_image_rejects_invalid_and_wraps_decode_errors
    (validatePath : String → Except PyErr String)
    (openDecode : String → Except PyErr PILImage)
    (path vp : String) (hvp : validatePath path = .ok vp) :
    (∀ img : PILImage, openDecode vp = .ok img →
        img.format = none ∨ img.width = 0 ∨ img.height = 0 →
        ∃ m, load_image validatePath openDecode path
          = .error (.ImageLoadError m))
    ∧ (∀ e : PyErr, openDecode vp = .error e → e.isOSLike = true →
        load_image validatePath openDecode path
          = .error (.ImageLoadError
              ("Failed to load image from " ++ path ++ ": " ++ e.msg))) := by
  constructor
  · intro img hdec hbad
    by_cases hf : img.format = none
    · exact ⟨"Image format could not be determined", by
        simp [load_image, hvp, hdec, validate_image_format, hf, PyErr.isOSLike]⟩
    · have hwz : img.width = 0 ∨ img.height = 0 := by
        rcases hbad with hb | hb | hb
        · exact absurd hb hf
        · exact Or.inl hb
        · exact Or.inr hb
      exact ⟨"Image has invalid dimensions", by
        simp [load_image, hvp, hdec, validate_image_format, hf, hwz, PyErr.isOSLike]⟩
  · intro e hdec hos
    simp [load_image, hvp, hdec, hos]

/-- Witness for C8: a decoded image with undetermined format, and a
decode failure with an unrecognized-format OSError. -/
theorem load_image_rejects_invalid_and_wraps_decode_errors_witness :
    (∃ m, load_image (fun s => .ok s) (fun _ => .ok ⟨none, 4, 4⟩)
        "images/sample.webp" = .error (.ImageLoadError m))
    ∧ load_image (fun s => .ok s)
        (fun _ => .error (.UnidentifiedImageError
          "cannot identify image file images/sample.webp"))
        "images/sample.webp"
      = .error (.ImageLoadError
          "Failed to load image from images/sample.webp: cannot identify image file images/sample.webp") := by
  constructor
  · exact (load_image_rejects_invalid_and_wraps_decode_errors
      (fun s => .ok s) (fun _ => .ok ⟨none, 4, 4⟩)
      "images/sample.webp" "images/sample.webp" rfl).1 ⟨none, 4, 4⟩ rfl (Or.inl rfl)
  · exact (load_image_rejects_invalid_and_wraps_decode_errors
      (fun s => .ok s)
      (fun _ => .error (.UnidentifiedImageError
        "cannot identify image file images/sample.webp"))
      "images/sample.webp" "images/sample.webp" rfl).2
      (.UnidentifiedImageError "cannot identify image file images/sample.webp") rfl rfl
